import Mathlib

/-!
Shallow embedding of hw/arm/t8030.c from the qemu-t8030 repository.

Covered pieces of the source file:
  - the boot-image memory layout built by `T8030_memory_setup`
    (t8030.c lines 240-363), embedded as a straight-line sequence of
    cursor values `phys_ptr1` .. `phys_ptr7` and derived placements;
  - the per-core system-register bank (the `T8030_CPREG_FUNCS`
    read/write handlers, lines 52-64) and the MMIO
    implementation-register window (`cpu_impl_reg_read` /
    `cpu_impl_reg_write`, lines 365-378);
  - the per-core register initialisation `T8030_add_cpregs`
    (lines 169-188);
  - the kernel patch engine `T8030_patch_kernel` (lines 219-238).

External inputs of `T8030_memory_setup` (results of
`macho_file_highest_lowest_base`, `macho_load_raw_file`,
`macho_map_raw_file`, `macho_load_dtb`, the machine RAM size, the sizes
of the external structures `xnu_arm64_boot_args` and `AllocatedData`,
and the configured flags) are gathered in a `MemConfig` record, so the
layout becomes a pure function of that record, exactly mirroring the
source's arithmetic.
-/

/-- Constant from t8030.c line 42: `#define T8030_PHYS_BASE (0x40000000)`. -/
def T8030_PHYS_BASE : Nat := 0x40000000

/-- Constant from t8030.c line 45:
`#define T8030_MAX_DEVICETREE_SIZE (0x40000)`. -/
def T8030_MAX_DEVICETREE_SIZE : Nat := 0x40000

/-- Constant from t8030.c line 46: `#define NOP_INST (0xd503201f)`. -/
def NOP_INST : Nat := 0xd503201f

/-- Constant from t8030.c line 49: `#define RET_INST (0xd65f03c0)`. -/
def RET_INST : Nat := 0xd65f03c0

/-- Modelled from the spec: the repository's 64 KiB alignment helper
`align_64k_high` (declared in the xnu headers, which are not under
src/). Per the spec's Region Allocator contract it rounds an address up
to the next multiple of the 64 KiB alignment. -/
def align_64k_high (addr : Nat) : Nat := (addr + 0xffff) / 0x10000 * 0x10000

/-- Modelled from the spec: `vtop_static` (xnu headers, not under src/)
translates a kernel virtual address to its physical counterpart using
the kernel's known load slide. `T8030_memory_setup` sets
`g_phys_base = T8030_PHYS_BASE` and `g_virt_base = virt_base`
(t8030.c lines 275-276) before every use of the translation, so the
slide is `virt_base ↦ T8030_PHYS_BASE`. -/
def vtop_static (virt_base va : Nat) : Nat := va - virt_base + T8030_PHYS_BASE

/-- The inputs that `T8030_memory_setup` (t8030.c lines 240-363) reads
from its collaborators and from the machine configuration:
  - `virt_base`, `kernel_low`, `kernel_high`: outputs of
    `macho_file_highest_lowest_base` (line 272);
  - `trustcache_size`: output of `macho_load_raw_file` (line 285);
  - `ramdisk_present`: whether `tms->ramdisk_filename[0] != 0`
    (line 311);
  - `ramdisk_raw_size`: output of `macho_map_raw_file` (line 314);
  - `ram_size`: `machine->ram_size` (line 341);
  - `boot_args_size`: `sizeof(struct xnu_arm64_boot_args)`, an external
    header structure (lines 325, 328);
  - `allocated_data_size`: `sizeof(AllocatedData)`, an external header
    structure (line 339);
  - `ramfb_field_off`: `offsetof(AllocatedData, ramfb)`, used at
    line 334;
  - `use_ramfb`: `tms->use_ramfb` (line 332);
  - `dtb_encoded_size`: the `dtb_size` output of `macho_load_dtb`
    (line 351). -/
structure MemConfig where
  virt_base : Nat
  kernel_low : Nat
  kernel_high : Nat
  trustcache_size : Nat
  ramdisk_present : Bool
  ramdisk_raw_size : Nat
  ram_size : Nat
  boot_args_size : Nat
  allocated_data_size : Nat
  ramfb_field_off : Nat
  use_ramfb : Bool
  dtb_encoded_size : Nat
deriving DecidableEq

/-- Cursor after t8030.c line 282: `phys_ptr += align_64k_high(0x2000000)`,
starting from `phys_ptr = T8030_PHYS_BASE` (line 277). -/
def phys_ptr1 (_c : MemConfig) : Nat := T8030_PHYS_BASE + align_64k_high 0x2000000

/-- t8030.c line 283: `hwaddr trustcache_pa = phys_ptr`. -/
def trustcache_pa (c : MemConfig) : Nat := phys_ptr1 c

/-- Cursor after t8030.c line 289: `phys_ptr += align_64k_high(trustcache_size)`. -/
def phys_ptr2 (c : MemConfig) : Nat := phys_ptr1 c + align_64k_high c.trustcache_size

/-- Cursor after t8030.c line 300:
`phys_ptr = align_64k_high(vtop_static(kernel_high))` (a reassignment,
not an increment). -/
def phys_ptr3 (c : MemConfig) : Nat :=
  align_64k_high (vtop_static c.virt_base c.kernel_high)

/-- t8030.c line 303: `dtb_pa = phys_ptr`. -/
def dtb_pa (c : MemConfig) : Nat := phys_ptr3 c

/-- Cursor after t8030.c line 306:
`phys_ptr += align_64k_high(T8030_MAX_DEVICETREE_SIZE)`. -/
def phys_ptr4 (c : MemConfig) : Nat :=
  phys_ptr3 c + align_64k_high T8030_MAX_DEVICETREE_SIZE

/-- t8030.c lines 309-319: `tms->ramdisk_file_dev.pa` is initialised to 0
and set to the cursor only when the ramdisk filename is non-empty. -/
def ramdisk_pa (c : MemConfig) : Nat :=
  if c.ramdisk_present then phys_ptr4 c else 0

/-- t8030.c lines 310-318: `ramdisk_size` is 0 when no ramdisk is
configured and `align_64k_high(tms->ramdisk_file_dev.size)` otherwise
(line 317 rounds the loaded size up). -/
def ramdisk_size (c : MemConfig) : Nat :=
  if c.ramdisk_present then align_64k_high c.ramdisk_raw_size else 0

/-- Cursor after the conditional block, t8030.c line 319:
`phys_ptr += tms->ramdisk_file_dev.size` when a ramdisk is present. -/
def phys_ptr5 (c : MemConfig) : Nat := phys_ptr4 c + ramdisk_size c

/-- t8030.c line 326: `kbootargs_pa = phys_ptr`. -/
def kbootargs_pa (c : MemConfig) : Nat := phys_ptr5 c

/-- Cursor after t8030.c line 328:
`phys_ptr += align_64k_high(sizeof(struct xnu_arm64_boot_args))`. -/
def phys_ptr6 (c : MemConfig) : Nat :=
  phys_ptr5 c + align_64k_high c.boot_args_size

/-- t8030.c line 329: `tms->extra_data_pa = phys_ptr`. -/
def extra_data_pa (c : MemConfig) : Nat := phys_ptr6 c

/-- t8030.c line 330: `allocated_ram_pa = phys_ptr`; taken before the
scratch (`AllocatedData`) allocation of line 339. -/
def allocated_ram_pa (c : MemConfig) : Nat := phys_ptr6 c

/-- Cursor after t8030.c line 339:
`phys_ptr += align_64k_high(sizeof(AllocatedData))`. -/
def phys_ptr7 (c : MemConfig) : Nat :=
  phys_ptr6 c + align_64k_high c.allocated_data_size

/-- t8030.c line 340: `top_of_kernel_data_pa = phys_ptr`. -/
def top_of_kernel_data_pa (c : MemConfig) : Nat := phys_ptr7 c

/-- t8030.c line 334: when `use_ramfb` is set, the framebuffer lives at
the address of the `ramfb` field inside the `AllocatedData` scratch
structure at `extra_data_pa`; otherwise `ramfb_pa` stays 0 (line 256). -/
def ramfb_pa (c : MemConfig) : Nat :=
  if c.use_ramfb then extra_data_pa c + c.ramfb_field_off else 0

/-- The running total `used_ram_for_blobs` of t8030.c. Its only three
increments are line 296 (`align_64k_high(kernel_high) - kernel_low`),
line 307 (`align_64k_high(T8030_MAX_DEVICETREE_SIZE)`) and line 325
(`align_64k_high(sizeof(struct xnu_arm64_boot_args))`). -/
def used_ram_for_blobs (c : MemConfig) : Nat :=
  align_64k_high c.kernel_high - c.kernel_low
    + align_64k_high T8030_MAX_DEVICETREE_SIZE
    + align_64k_high c.boot_args_size

/-- t8030.c line 341: `remaining_mem_size = machine->ram_size - used_ram_for_blobs`. -/
def remaining_mem_size (c : MemConfig) : Nat :=
  c.ram_size - used_ram_for_blobs c

/-- t8030.c line 342:
`mem_size = allocated_ram_pa - T8030_PHYS_BASE + remaining_mem_size`. -/
def mem_size (c : MemConfig) : Nat :=
  allocated_ram_pa c - T8030_PHYS_BASE + remaining_mem_size c

/-- t8030.c line 343: `tms->dram_base = T8030_PHYS_BASE`. -/
def dram_base (_c : MemConfig) : Nat := T8030_PHYS_BASE

/-- The successive values taken by the local `phys_ptr` during one run
of `T8030_memory_setup`: line 277 (start), 282, 289, 300, 306, 319
(a no-op when no ramdisk is configured), 328 and 339. -/
def phys_ptr_trace (c : MemConfig) : List Nat :=
  [T8030_PHYS_BASE, phys_ptr1 c, phys_ptr2 c, phys_ptr3 c, phys_ptr4 c,
   phys_ptr5 c, phys_ptr6 c, phys_ptr7 c]

/-- A placed boot region: physical base and size in bytes. -/
structure Region where
  base : Nat
  size : Nat
deriving DecidableEq

/-- Two regions are disjoint when one ends at or before the other
begins; this is the property quantified in the spec's §8. -/
def region_disjoint (a b : Region) : Prop :=
  a.base + a.size ≤ b.base ∨ b.base + b.size ≤ a.base

instance (a b : Region) : Decidable (region_disjoint a b) := by
  unfold region_disjoint
  infer_instance

/-- The trust-cache region: placed at `trustcache_pa` (t8030.c line 283)
and filled by `macho_load_raw_file` with `trustcache_size` bytes. -/
def trustcache_region (c : MemConfig) : Region :=
  ⟨trustcache_pa c, c.trustcache_size⟩

/-- The loaded kernel span: `arm_load_macho` (t8030.c line 292) maps the
virtual span `kernel_low .. kernel_high` at the slide
`virt_base ↦ T8030_PHYS_BASE`, so the physical span starts at
`vtop_static(kernel_low)` and is `kernel_high - kernel_low` bytes. -/
def kernel_region (c : MemConfig) : Region :=
  ⟨vtop_static c.virt_base c.kernel_low, c.kernel_high - c.kernel_low⟩

/-- The device-tree region: base `dtb_pa` (t8030.c line 303), with the
full reserved maximum consumed by the cursor (line 306). -/
def dtb_region (c : MemConfig) : Region :=
  ⟨dtb_pa c, align_64k_high T8030_MAX_DEVICETREE_SIZE⟩

/-- The ramdisk region (meaningful only when a ramdisk is configured):
base `tms->ramdisk_file_dev.pa`, size the 64k-rounded loaded size
(t8030.c lines 313-319). -/
def ramdisk_region (c : MemConfig) : Region :=
  ⟨ramdisk_pa c, ramdisk_size c⟩

/-- The boot-args region: base `kbootargs_pa` (t8030.c line 326), the
cursor consuming `align_64k_high(sizeof(struct xnu_arm64_boot_args))`
(line 328). -/
def kbootargs_region (c : MemConfig) : Region :=
  ⟨kbootargs_pa c, align_64k_high c.boot_args_size⟩

/-- The extra scratch-data region: base `extra_data_pa` (t8030.c
line 329), the cursor consuming `align_64k_high(sizeof(AllocatedData))`
(line 339). -/
def extra_data_region (c : MemConfig) : Region :=
  ⟨extra_data_pa c, align_64k_high c.allocated_data_size⟩

/-- The boot regions placed by one run of `T8030_memory_setup`, the
ramdisk appearing only when configured. -/
def boot_regions (c : MemConfig) : List Region :=
  [trustcache_region c, kernel_region c, dtb_region c]
    ++ (if c.ramdisk_present then [ramdisk_region c] else [])
    ++ [kbootargs_region c, extra_data_region c]

/-- The outputs of `T8030_memory_setup` recorded into the machine state
and into the boot-args structure. -/
structure Layout where
  trustcache_pa : Nat
  dtb_pa : Nat
  ramdisk_pa : Nat
  ramdisk_size : Nat
  kbootargs_pa : Nat
  extra_data_pa : Nat
  top_of_kernel_data_pa : Nat
  dram_base : Nat
  dram_size : Nat
deriving DecidableEq

/-- The layout computed by one run of `T8030_memory_setup` (ignoring the
`assert` of line 355; see `memory_setup_checked` for it). -/
def memory_setup (c : MemConfig) : Layout :=
  ⟨trustcache_pa c, dtb_pa c, ramdisk_pa c, ramdisk_size c, kbootargs_pa c,
   extra_data_pa c, top_of_kernel_data_pa c, dram_base c, mem_size c⟩

/-- `T8030_memory_setup` including the assertion of t8030.c line 355,
`assert(dtb_size <= T8030_MAX_DEVICETREE_SIZE)`, which fatally aborts
the build when the encoded device tree exceeds the reserved maximum.
The fatal abort is modelled as `none`. -/
def memory_setup_checked (c : MemConfig) : Option Layout :=
  if c.dtb_encoded_size ≤ T8030_MAX_DEVICETREE_SIZE then some (memory_setup c)
  else none

/-- The named storage slots of a core's register bank: the
`T8030_CPREG_VAR_NAME` variables declared through `T8030_CPREG_FUNCS`
(t8030.c lines 75-113). -/
inductive T8030Reg where
  | ARM64_REG_HID11
  | ARM64_REG_HID3
  | ARM64_REG_HID5
  | ARM64_REG_HID4
  | ARM64_REG_HID8
  | ARM64_REG_HID7
  | ARM64_REG_LSU_ERR_STS
  | PMC0
  | PMC1
  | PMCR1
  | PMSR
  | L2ACTLR_EL1
  | ARM64_REG_APCTL_EL1
  | ARM64_REG_KERNELKEYLO_EL1
  | ARM64_REG_KERNELKEYHI_EL1
  | ARM64_REG_EHID4
  | S3_4_c15_c0_5
  | S3_4_c15_c1_3
  | S3_4_c15_c1_4
  | ARM64_REG_IPI_SR
  | ARM64_REG_CYC_OVRD
  | ARM64_REG_ACC_CFG
  | ARM64_REG_VMSA_LOCK_EL1
  | S3_6_c15_c1_0
  | S3_6_c15_c1_1
  | S3_6_c15_c1_2
  | S3_6_c15_c1_5
  | S3_6_c15_c1_6
  | S3_6_c15_c1_7
  | S3_6_c15_c3_0
  | S3_6_c15_c3_1
  | S3_6_c15_c8_0
  | S3_6_c15_c8_1
  | S3_6_c15_c8_2
  | S3_6_c15_c8_3
  | S3_6_c15_c9_1
  | UPMPCM
  | UPMCR0
  | UPMSR
deriving DecidableEq

/-- A core's register bank: the value held by each storage slot. -/
abbrev Bank : Type := T8030Reg → Nat

/-- Direct assignment to one storage slot of the bank (a C struct field
assignment such as `tcpu->T8030_CPREG_VAR_NAME(name) = v`). -/
def bank_set (b : Bank) (r : T8030Reg) (v : Nat) : Bank :=
  fun r2 => if r2 = r then v else b r2

/-- The system-register read handler generated by `T8030_CPREG_FUNCS`
(t8030.c lines 53-58): returns the stored slot value. -/
def T8030_cpreg_read (b : Bank) (r : T8030Reg) : Nat := b r

/-- The system-register write handler generated by `T8030_CPREG_FUNCS`
(t8030.c lines 59-64): stores the incoming `uint64_t` value into the
slot (the slot is 64 bits wide, hence the reduction mod 2^64). -/
def T8030_cpreg_write (b : Bank) (r : T8030Reg) (v : Nat) : Bank :=
  bank_set b r (v % 2 ^ 64)

/-- The core's MMIO implementation-register window read handler
`cpu_impl_reg_read` (t8030.c lines 372-378): it logs the access and
returns 0 for every offset; it never consults the register bank. -/
def cpu_impl_reg_read (_b : Bank) (_addr _size : Nat) : Nat := 0

/-- The all-zero bank: a fresh `T8030CPU` instance is zero-allocated by
the QOM object system before `T8030_add_cpregs` runs on it. -/
def zeroBank : Bank := fun _ => 0

/-- `T8030_add_cpregs` (t8030.c lines 169-188): the explicit slot
assignments performed on a core before its coprocessor registers are
registered; `ARM64_REG_APCTL_EL1` is set to 2 (line 184), every other
assignment stores 0. -/
def T8030_add_cpregs (b : Bank) : Bank :=
  bank_set (bank_set (bank_set (bank_set (bank_set (bank_set (bank_set
    (bank_set (bank_set (bank_set (bank_set (bank_set (bank_set (bank_set b
      T8030Reg.ARM64_REG_HID11 0)
      T8030Reg.ARM64_REG_HID3 0)
      T8030Reg.ARM64_REG_HID5 0)
      T8030Reg.ARM64_REG_HID8 0)
      T8030Reg.ARM64_REG_HID7 0)
      T8030Reg.ARM64_REG_LSU_ERR_STS 0)
      T8030Reg.PMC0 0)
      T8030Reg.PMC1 0)
      T8030Reg.PMCR1 0)
      T8030Reg.PMSR 0)
      T8030Reg.L2ACTLR_EL1 0)
      T8030Reg.ARM64_REG_APCTL_EL1 2)
      T8030Reg.ARM64_REG_KERNELKEYLO_EL1 0)
      T8030Reg.ARM64_REG_KERNELKEYHI_EL1 0

/-- Guest physical memory at byte granularity. -/
abbrev Mem : Type := Nat → Nat

/-- A 4-byte little-endian store, as performed by `address_space_rw`
with a `uint32_t` source buffer of size 4 (t8030.c lines 223-237). -/
def write32 (m : Mem) (pa w : Nat) : Mem :=
  fun a => if pa ≤ a ∧ a < pa + 4 then w / 256 ^ (a - pa) % 256 else m a

/-- `T8030_patch_kernel` (t8030.c lines 219-238): four fixed 32-bit
overwrites at fixed kernel virtual addresses, each translated by
`vtop_static` — `RET` into `rorgn_stash_range` and `rorgn_lockdown`,
`NOP` into `gxf_enable` and the `pmap_ppl_locked_down` store. -/
def T8030_patch_kernel (virt_base : Nat) (m : Mem) : Mem :=
  write32 (write32 (write32 (write32 m
    (vtop_static virt_base 0xFFFFFFF007B4A53C) RET_INST)
    (vtop_static virt_base 0xFFFFFFF007B4AECC) RET_INST)
    (vtop_static virt_base 0xFFFFFFF00811CE98) NOP_INST)
    (vtop_static virt_base 0xFFFFFFF007B5A5A8) NOP_INST

/-- Rounding up to 64 KiB never decreases an address. -/
theorem le_align_64k_high (a : Nat) : a ≤ align_64k_high a := by
  unfold align_64k_high
  omega

/-- A concrete configuration with no ramdisk and a small kernel span
(virtual span `0 .. 0x1000` at `virt_base = 0`). -/
def cfgA : MemConfig :=
  ⟨0, 0, 0x1000, 0, false, 0, 0x100000000, 0x270, 0x10000, 0x4000, false, 0x1000⟩

/-- A concrete configuration of the shape the loader expects: the
kernel's lowest section (`kernel_low = 0x2010000`) sits above the raw
file prefix and trust cache; a ramdisk is configured. -/
def cfgB : MemConfig :=
  ⟨0, 0x2010000, 0x2800000, 0x1000, true, 0x8000, 0x100000000, 0x270,
   0x10000, 0x4000, true, 0x20000⟩

/-- A concrete configuration whose kernel span starts at
`kernel_low = virt_base`, so its physical image covers the trust-cache
placement slot. -/
def cfgC : MemConfig :=
  ⟨0, 0, 0x3000000, 0x1000, false, 0, 0x100000000, 0x270, 0x10000,
   0x4000, false, 0x1000⟩

/-- A concrete configuration whose encoded device tree is one byte over
the reserved maximum. -/
def cfgD : MemConfig :=
  ⟨0, 0x2010000, 0x2800000, 0x1000, false, 0, 0x100000000, 0x270,
   0x10000, 0x4000, false, 0x40001⟩

/-- C1: the claim — that a value written through the system-register
path is returned by a subsequent read through the core's MMIO
implementation-register window — is false: `cpu_impl_reg_read` logs and
returns 0 for every offset, never consulting the bank. Writing 1 to
`ARM64_REG_HID3` and reading the MMIO window yields 0, not 1. -/
theorem C1_mmio_read_counterexample :
    cpu_impl_reg_read
      (T8030_cpreg_write zeroBank T8030Reg.ARM64_REG_HID3 1) 0 8 ≠ 1 := by
  decide

/-- C1 (amended): the round trip holds through the system-register path
itself: for every bank, every register and every 64-bit value `v`,
reading a register through `T8030_cpreg_read` right after
`T8030_cpreg_write` stored `v` there returns exactly `v`. (The MMIO
implementation-register window does not share the bank's storage: its
read handler returns 0 unconditionally.) -/
theorem C1_sysreg_roundtrip (b : Bank) (r : T8030Reg) (v : Nat)
    (h : v < 2 ^ 64) :
    T8030_cpreg_read (T8030_cpreg_write b r v) r = v := by
  unfold T8030_cpreg_read T8030_cpreg_write bank_set
  simp
  omega

/-- C1 witness: the round trip at a concrete bank, register and value. -/
theorem C1_sysreg_roundtrip_witness :
    (0xdeadbeef : Nat) < 2 ^ 64 ∧
    T8030_cpreg_read
      (T8030_cpreg_write zeroBank T8030Reg.ARM64_REG_HID3 0xdeadbeef)
      T8030Reg.ARM64_REG_HID3 = 0xdeadbeef :=
  ⟨by decide, C1_sysreg_roundtrip zeroBank T8030Reg.ARM64_REG_HID3 0xdeadbeef (by decide)⟩

/-- C2: the claim — that `phys_ptr` is monotonically non-decreasing for
every configuration — is false: line 300 reassigns
`phys_ptr = align_64k_high(vtop_static(kernel_high))`, which for the
small kernel span of `cfgA` moves the cursor from 0x42000000 back down
to 0x40010000. -/
theorem C2_cursor_counterexample :
    ¬ List.Chain' (fun a b => a ≤ b) (phys_ptr_trace cfgA) := by
  simp only [phys_ptr_trace, List.chain'_cons, List.chain'_singleton, and_true]
  decide

/-- C2 (amended): the cursor is monotonically non-decreasing across the
whole build provided the reassignment of line 300 does not move it
backwards, i.e. provided the kernel's aligned physical top is at least
the cursor value after the trust-cache load; every other step only adds
a non-negative amount. -/
theorem C2_cursor_monotone (c : MemConfig)
    (h : phys_ptr2 c ≤ phys_ptr3 c) :
    List.Chain' (fun a b => a ≤ b) (phys_ptr_trace c) := by
  unfold phys_ptr_trace
  unfold phys_ptr7 phys_ptr6 phys_ptr5 phys_ptr4 at *
  unfold phys_ptr2 phys_ptr1 at *
  simp only [List.chain'_cons, List.chain'_singleton, and_true]
  refine ⟨?_, ?_, ?_, ?_, ?_, ?_, ?_⟩ <;> omega

/-- C2 witness: the monotone cursor trace at a configuration whose
kernel span reaches past the trust cache. -/
theorem C2_cursor_monotone_witness :
    phys_ptr2 cfgB ≤ phys_ptr3 cfgB ∧
    List.Chain' (fun a b => a ≤ b) (phys_ptr_trace cfgB) :=
  ⟨by decide, C2_cursor_monotone cfgB (by decide)⟩

/-- C3: the claim — that any two placed boot regions are disjoint for
every configuration — is false: nothing in `T8030_memory_setup` keeps
the loaded kernel span away from the trust-cache slot. In `cfgC` the
kernel's physical image `[0x40000000, 0x43000000)` covers the trust
cache at `[0x42000000, 0x42001000)`. -/
theorem C3_regions_counterexample :
    ¬ List.Pairwise region_disjoint (boot_regions cfgC) := by
  decide

/-- C3 (amended): all placed regions are pairwise disjoint provided the
kernel's virtual span is well formed (`virt_base ≤ kernel_low ≤
kernel_high`) and the kernel's lowest section sits above the raw-file
prefix and the trust cache (`virt_base + 0x2000000 + trustcache_size ≤
kernel_low`) — the layout the loader comments describe but the code
never checks. -/
theorem C3_regions_disjoint (c : MemConfig)
    (h1 : c.virt_base ≤ c.kernel_low)
    (h2 : c.kernel_low ≤ c.kernel_high)
    (h3 : c.virt_base + 0x2000000 + c.trustcache_size ≤ c.kernel_low) :
    List.Pairwise region_disjoint (boot_regions c) := by
  have ha : align_64k_high 0x2000000 = 0x2000000 := by decide
  have hd : align_64k_high 0x40000 = 0x40000 := by decide
  have hk := le_align_64k_high (vtop_static c.virt_base c.kernel_high)
  unfold vtop_static T8030_PHYS_BASE at hk
  cases hrp : c.ramdisk_present <;>
    simp [boot_regions, trustcache_region, kernel_region, dtb_region,
      ramdisk_region, kbootargs_region, extra_data_region, trustcache_pa,
      kbootargs_pa, extra_data_pa, dtb_pa, ramdisk_pa, ramdisk_size,
      phys_ptr1, phys_ptr2, phys_ptr3, phys_ptr4, phys_ptr5, phys_ptr6,
      vtop_static, T8030_PHYS_BASE, T8030_MAX_DEVICETREE_SIZE, hrp,
      List.pairwise_cons, region_disjoint] <;>
    omega

/-- C3 witness: pairwise-disjoint regions at the concrete well-formed
configuration `cfgB`. -/
theorem C3_regions_disjoint_witness :
    (cfgB.virt_base ≤ cfgB.kernel_low ∧ cfgB.kernel_low ≤ cfgB.kernel_high ∧
      cfgB.virt_base + 0x2000000 + cfgB.trustcache_size ≤ cfgB.kernel_low) ∧
    List.Pairwise region_disjoint (boot_regions cfgB) :=
  ⟨⟨by decide, by decide, by decide⟩,
   C3_regions_disjoint cfgB (by decide) (by decide) (by decide)⟩

/-- The accounting the claim C4 describes: a `used_ram_for_blobs` that
sums every placed blob — trust cache, kernel span, device tree, ramdisk
and boot-args (stated from the claim's words, for comparison with the
source's `used_ram_for_blobs`). -/
def used_ram_for_blobs_claimed (c : MemConfig) : Nat :=
  align_64k_high c.trustcache_size
    + (align_64k_high c.kernel_high - c.kernel_low)
    + align_64k_high T8030_MAX_DEVICETREE_SIZE
    + ramdisk_size c
    + align_64k_high c.boot_args_size

/-- C4: the claim — that `mem_size` equals `(allocated_ram_pa -
T8030_PHYS_BASE) + (ram_size - used_ram_for_blobs)` with
`used_ram_for_blobs` summing every blob including the trust cache and
ramdisk — is false: at `cfgB` (trust cache 0x1000, ramdisk 0x8000) the
code's `mem_size` differs from that formula by the 0x20000 bytes of
trust cache and ramdisk the code never adds to `used_ram_for_blobs`. -/
theorem C4_mem_size_counterexample :
    mem_size cfgB ≠
      allocated_ram_pa cfgB - T8030_PHYS_BASE
        + (cfgB.ram_size - used_ram_for_blobs_claimed cfgB) := by
  decide

/-- C4 (amended): `mem_size = (allocated_ram_pa - T8030_PHYS_BASE) +
(ram_size - used_ram_for_blobs)` where `allocated_ram_pa` is the cursor
taken before the scratch allocation and `used_ram_for_blobs` sums only
the kernel span (`align_64k_high(kernel_high) - kernel_low`), the
device-tree reservation and the boot-args reservation; the trust cache
and the ramdisk are never accounted. -/
theorem C4_mem_size_accounting (c : MemConfig) :
    mem_size c =
      allocated_ram_pa c - T8030_PHYS_BASE
        + (c.ram_size
            - (align_64k_high c.kernel_high - c.kernel_low
                + align_64k_high T8030_MAX_DEVICETREE_SIZE
                + align_64k_high c.boot_args_size)) := rfl

/-- C5: the claim — that with no ramdisk configured both the boot-args
base and the extra-data base lie `align_64k_high(sizeof(boot_args))`
bytes after the device-tree region's reserved end — is false for the
boot-args base: at `cfgA` the boot-args region starts exactly at the
device-tree reserved end, not `align_64k_high(sizeof(boot_args))`
bytes after it. -/
theorem C5_bootargs_counterexample :
    cfgA.ramdisk_present = false ∧
    kbootargs_pa cfgA ≠
      dtb_pa cfgA + align_64k_high T8030_MAX_DEVICETREE_SIZE
        + align_64k_high cfgA.boot_args_size := by
  constructor
  · decide
  · decide

/-- C5 (amended): with no ramdisk configured, `tms->ramdisk_file_dev.pa`
and `ramdisk_size` are both 0, the boot-args base sits exactly at the
device-tree region's reserved end
(`dtb_pa + align_64k_high(T8030_MAX_DEVICETREE_SIZE)`), and the
extra-data base sits `align_64k_high(sizeof(boot_args))` bytes after
that end. -/
theorem C5_no_ramdisk_layout (c : MemConfig)
    (h : c.ramdisk_present = false) :
    ramdisk_pa c = 0 ∧ ramdisk_size c = 0 ∧
    kbootargs_pa c = dtb_pa c + align_64k_high T8030_MAX_DEVICETREE_SIZE ∧
    extra_data_pa c =
      dtb_pa c + align_64k_high T8030_MAX_DEVICETREE_SIZE
        + align_64k_high c.boot_args_size := by
  unfold ramdisk_pa ramdisk_size kbootargs_pa extra_data_pa phys_ptr6
    phys_ptr5 phys_ptr4 dtb_pa ramdisk_size
  rw [h]
  simp

/-- C5 witness: the no-ramdisk placements at the concrete
configuration `cfgA`. -/
theorem C5_no_ramdisk_layout_witness :
    cfgA.ramdisk_present = false ∧
    (ramdisk_pa cfgA = 0 ∧ ramdisk_size cfgA = 0 ∧
     kbootargs_pa cfgA = dtb_pa cfgA + align_64k_high T8030_MAX_DEVICETREE_SIZE ∧
     extra_data_pa cfgA =
       dtb_pa cfgA + align_64k_high T8030_MAX_DEVICETREE_SIZE
         + align_64k_high cfgA.boot_args_size) :=
  ⟨by decide, C5_no_ramdisk_layout cfgA (by decide)⟩

/-- C6: with a trust-cache file whose loaded size is 0x1000, the layout
places the trust cache at `T8030_PHYS_BASE + align_64k_high(0x2000000)`
and the cursor right after the trust-cache load equals
`trustcache_pa + align_64k_high(0x1000)` (t8030.c lines 282-289). -/
theorem C6_trustcache_placement (c : MemConfig)
    (h : c.trustcache_size = 0x1000) :
    trustcache_pa c = T8030_PHYS_BASE + align_64k_high 0x2000000 ∧
    phys_ptr2 c = trustcache_pa c + align_64k_high 0x1000 := by
  unfold phys_ptr2 trustcache_pa phys_ptr1
  rw [h]
  exact ⟨rfl, rfl⟩

/-- C6 witness: the trust-cache placement at the concrete configuration
`cfgB`, whose trust-cache size is 0x1000. -/
theorem C6_trustcache_placement_witness :
    cfgB.trustcache_size = 0x1000 ∧
    (trustcache_pa cfgB = T8030_PHYS_BASE + align_64k_high 0x2000000 ∧
     phys_ptr2 cfgB = trustcache_pa cfgB + align_64k_high 0x1000) :=
  ⟨by decide, C6_trustcache_placement cfgB (by decide)⟩

/-- C7: the layout build fails fatally (modelled as `none`) exactly when
the encoded device-tree size exceeds `T8030_MAX_DEVICETREE_SIZE`
(0x40000): above that bound the `assert` of t8030.c line 355 aborts;
at or below it the build proceeds. -/
theorem C7_dtb_size_guard (c : MemConfig) :
    (T8030_MAX_DEVICETREE_SIZE < c.dtb_encoded_size →
      memory_setup_checked c = none) ∧
    (c.dtb_encoded_size ≤ T8030_MAX_DEVICETREE_SIZE →
      memory_setup_checked c = some (memory_setup c)) := by
  unfold memory_setup_checked
  constructor
  · intro h
    rw [if_neg (by omega)]
  · intro h
    rw [if_pos h]

/-- C7 witness: at `cfgD` the encoded size is `0x40000 + 1` and the
build fails; at `cfgA` it is within bound and the build succeeds. -/
theorem C7_dtb_size_guard_witness :
    T8030_MAX_DEVICETREE_SIZE < cfgD.dtb_encoded_size ∧
    memory_setup_checked cfgD = none ∧
    cfgA.dtb_encoded_size ≤ T8030_MAX_DEVICETREE_SIZE ∧
    memory_setup_checked cfgA = some (memory_setup cfgA) :=
  ⟨by decide, (C7_dtb_size_guard cfgD).1 (by decide), by decide,
   (C7_dtb_size_guard cfgA).2 (by decide)⟩

/-- C8: after `T8030_add_cpregs` runs on a core's zero-allocated
register bank (QOM instances are zero-allocated before the setup),
every register holds 0 except `ARM64_REG_APCTL_EL1`, which holds the
sentinel 2 (t8030.c line 184); the setup is the same function for every
core, so this holds for every core. -/
theorem C8_initial_bank_values (r : T8030Reg) :
    T8030_add_cpregs zeroBank r =
      if r = T8030Reg.ARM64_REG_APCTL_EL1 then 2 else 0 := by
  cases r <;> rfl

/-- C9: `T8030_patch_kernel` is idempotent: each of its four writes
stores a constant word at a constant translated address, so running the
engine twice over guest memory leaves exactly the state one run
produces, for every slide and every starting memory. -/
theorem C9_patch_idempotent (virt_base : Nat) (m : Mem) :
    T8030_patch_kernel virt_base (T8030_patch_kernel virt_base m) =
      T8030_patch_kernel virt_base m := by
  funext a
  simp only [T8030_patch_kernel, write32]
  split_ifs <;> rfl

/-- The same configuration with the framebuffer flag forced to `b`
(all other fields unchanged). -/
def set_ramfb (c : MemConfig) (b : Bool) : MemConfig :=
  ⟨c.virt_base, c.kernel_low, c.kernel_high, c.trustcache_size,
   c.ramdisk_present, c.ramdisk_raw_size, c.ram_size, c.boot_args_size,
   c.allocated_data_size, c.ramfb_field_off, b, c.dtb_encoded_size⟩

/-- C10: two layout-build runs differing only in `use_ramfb` compute
identical layout outputs — boot-args base, extra-data base, top of
kernel data, DRAM base and DRAM size — and the scratch advance is
`align_64k_high(sizeof(AllocatedData))` either way: the flag only
selects whether a framebuffer is defined inside the scratch region
(`ramfb_pa`) and a video descriptor written (t8030.c lines 332-337
never touch `phys_ptr`). -/
theorem C10_ramfb_flag_layout_independent (c : MemConfig) :
    kbootargs_pa (set_ramfb c true) = kbootargs_pa (set_ramfb c false) ∧
    extra_data_pa (set_ramfb c true) = extra_data_pa (set_ramfb c false) ∧
    top_of_kernel_data_pa (set_ramfb c true) =
      top_of_kernel_data_pa (set_ramfb c false) ∧
    dram_base (set_ramfb c true) = dram_base (set_ramfb c false) ∧
    mem_size (set_ramfb c true) = mem_size (set_ramfb c false) ∧
    top_of_kernel_data_pa (set_ramfb c true)
        - extra_data_pa (set_ramfb c true)
      = align_64k_high (set_ramfb c true).allocated_data_size := by
  refine ⟨rfl, rfl, rfl, rfl, rfl, ?_⟩
  unfold top_of_kernel_data_pa phys_ptr7 extra_data_pa
  omega
